import Mathlib

/-!
Shallow embedding of the chat analysis and aggregation pipeline of
`backend/open_webui/services/analytics_processor.py` (class `AnalyticsProcessor`)
and of the table declarations of
`backend/open_webui/cogniforce_models/analytics_tables.py`.

Conventions of the embedding:
* Python timestamps (seconds since the epoch, `datetime` values) are rationals
  counting seconds; a calendar date is the day number `⌊t / 86400⌋`.
* Python `int(x)` on a float truncates toward zero: `pyInt`.
* Python `min(xs)` / `max(xs)` / `sorted(xs)` on a nonempty numeric list:
  `pyMin`, `pyMax`, and `List.insertionSort (· ≤ ·)` (any correct sort of a
  list of numbers returns the same list).
* The database stores are lists of rows; the declared SQLAlchemy constraints
  (`unique=True` on `chat_analysis.chat_id`, the three `CheckConstraint`s of
  `ChatAnalysis`) are enforced by the insert operation, mirroring what the
  relational engine does with the declared schema.
* Wall-clock only fields (`processed_at`, `created_at`, `updated_at` of rows)
  and the log-output of the Python code are not modelled; no claim mentions
  them.
-/

namespace Cogniforce

/-- Python `int(x)` for a real-valued `x`: truncation toward zero. -/
def pyInt (q : ℚ) : ℤ := if 0 ≤ q then ⌊q⌋ else ⌈q⌉

/-- Python `min(xs)` on a list (`0` stands for the `ValueError` on `[]`,
which the source never reaches: it only calls `min` on nonempty lists). -/
def pyMin : List ℚ → ℚ
  | [] => 0
  | a :: l => l.foldl min a

/-- Python `max(xs)` on a list, same convention as `pyMin`. -/
def pyMax : List ℚ → ℚ
  | [] => 0
  | a :: l => l.foldl max a

/-- `AnalyticsProcessor.idle_threshold_minutes` (constructor, line 57). -/
def idle_threshold_minutes : ℚ := 10

/-- One loop step of `_calculate_active_duration`: the gap between two
consecutive sorted timestamps, in minutes, counted iff it is at most the
idle threshold (lines 443-450). -/
def gapContrib (a b : ℚ) : ℚ :=
  if (b - a) / 60 ≤ idle_threshold_minutes then (b - a) / 60 else 0

/-- The accumulated `active_minutes` of `_calculate_active_duration` over an
already sorted list of timestamps (the `for i in range(1, len(...))` loop). -/
def activeSum : List ℚ → ℚ
  | a :: b :: rest => gapContrib a b + activeSum (b :: rest)
  | _ => 0

/-- `AnalyticsProcessor._calculate_active_duration` (lines 427-452):
fewer than two timestamps give `0`; otherwise sort ascending, sum the
consecutive gaps that are within the idle threshold, truncate to an int. -/
def _calculate_active_duration (timestamps : List ℚ) : ℤ :=
  if timestamps.length < 2 then 0
  else pyInt (activeSum (timestamps.insertionSort (· ≤ ·)))

/-- One chat message as consumed by the processor: `msg.get('role')`,
`msg.get('content', '')` and the optional `msg['timestamp']`. -/
structure Message where
  role : Option String
  content : String
  timestamp : Option ℚ
deriving DecidableEq, Repr

/-- The `TimeMetrics` pydantic record (analytics_tables.py, lines 425-433). -/
structure TimeMetricsM where
  first_message_at : ℚ
  last_message_at : ℚ
  total_duration_minutes : ℤ
  active_duration_minutes : ℤ
  idle_time_minutes : ℤ
deriving DecidableEq, Repr

/-- `AnalyticsProcessor._calculate_time_metrics` (lines 374-425). `now` is
the value of `datetime.now()` in the empty-messages branch; `created_at` and
`updated_at` are the chat-level fallback timestamps. -/
def _calculate_time_metrics (now : ℚ) (messages : List Message)
    (created_at updated_at : ℚ) : TimeMetricsM :=
  if messages = [] then
    { first_message_at := now
      last_message_at := now
      total_duration_minutes := 0
      active_duration_minutes := 0
      idle_time_minutes := 0 }
  else
    let timestamps := messages.filterMap (fun m => m.timestamp)
    let first_message_at := if timestamps = [] then created_at else pyMin timestamps
    let last_message_at := if timestamps = [] then updated_at else pyMax timestamps
    let total_duration_minutes := pyInt ((last_message_at - first_message_at) / 60)
    let active_duration_minutes := _calculate_active_duration timestamps
    { first_message_at := first_message_at
      last_message_at := last_message_at
      total_duration_minutes := total_duration_minutes
      active_duration_minutes := active_duration_minutes
      idle_time_minutes := max 0 (total_duration_minutes - active_duration_minutes) }

/-- A value found under one of the numeric keys of the decoded LLM JSON:
either a number (what Python `int(...)` accepts, abstracted to the integer it
yields) or a non-numeric value on which `int(...)` raises. -/
inductive JsonNum
  | num (n : ℤ)
  | bad
deriving DecidableEq, Repr

/-- The decoded LLM response dict as read by `_parse_time_estimates`:
`none` for a field models an absent key (then `.get(k, 0)` yields `0`). -/
structure LlmResponse where
  manual_time_low : Option JsonNum
  manual_time_most_likely : Option JsonNum
  manual_time_high : Option JsonNum
  confidence_level : Option JsonNum
deriving DecidableEq, Repr

/-- The `TimeEstimates` pydantic record (analytics_tables.py, lines 436-443). -/
structure TimeEstimatesM where
  low : ℤ
  most_likely : ℤ
  high : ℤ
  confidence : ℤ
deriving DecidableEq, Repr

/-- `int(llm_response.get(key, 0))`: `some` the integer, or `none` when
`int(...)` raises `ValueError`/`TypeError`. -/
def getIntField (v : Option JsonNum) : Option ℤ :=
  match v with
  | none => some 0
  | some (JsonNum.num n) => some n
  | some JsonNum.bad => none

/-- `AnalyticsProcessor._parse_time_estimates` (lines 796-820): clamp each
field to `≥ 0` (confidence also to `≤ 100`); if any field raises in
`int(...)`, the whole record defaults to zeros. -/
def _parse_time_estimates (resp : LlmResponse) : TimeEstimatesM :=
  match getIntField resp.manual_time_low, getIntField resp.manual_time_most_likely,
      getIntField resp.manual_time_high, getIntField resp.confidence_level with
  | some l, some m, some h, some c =>
    { low := max 0 l
      most_likely := max 0 m
      high := max 0 h
      confidence := max 0 (min 100 c) }
  | _, _, _, _ =>
    { low := 0, most_likely := 0, high := 0, confidence := 0 }

/-- One row of the `chat_analysis` table (analytics_tables.py, lines 98-153). -/
structure ChatAnalysisRow where
  chat_id : String
  user_id : String
  first_message_at : ℚ
  last_message_at : ℚ
  total_duration_minutes : ℤ
  active_duration_minutes : ℤ
  idle_time_minutes : ℤ
  manual_time_low : ℤ
  manual_time_most_likely : ℤ
  manual_time_high : ℤ
  confidence_level : ℤ
  time_saved_minutes : ℤ
  message_count : ℤ
  chat_date : ℤ
deriving DecidableEq, Repr

/-- CheckConstraint `positive_durations` of `chat_analysis`. -/
def positiveDurationsCheck (r : ChatAnalysisRow) : Bool :=
  decide (0 ≤ r.total_duration_minutes) && decide (0 ≤ r.active_duration_minutes)
    && decide (0 ≤ r.idle_time_minutes) && decide (0 ≤ r.time_saved_minutes)

/-- CheckConstraint `valid_confidence` of `chat_analysis`. -/
def validConfidenceCheck (r : ChatAnalysisRow) : Bool :=
  decide (0 ≤ r.confidence_level) && decide (r.confidence_level ≤ 100)

/-- CheckConstraint `valid_estimates` of `chat_analysis`. -/
def validEstimatesCheck (r : ChatAnalysisRow) : Bool :=
  decide (r.manual_time_low ≤ r.manual_time_most_likely)
    && decide (r.manual_time_most_likely ≤ r.manual_time_high)

/-- Insert into `chat_analysis` as the relational engine performs it for the
declared schema: the `unique=True` constraint on `chat_id` (line 105) and the
three `CheckConstraint`s (lines 134-150) reject the row with an error;
otherwise the row is appended (`db.add` + `db.commit` in
`_store_analysis_results`, lines 822-859, which re-raises any failure). -/
def insertChatAnalysis (store : List ChatAnalysisRow) (r : ChatAnalysisRow) :
    Except String (List ChatAnalysisRow) :=
  if store.any (fun x => x.chat_id == r.chat_id) then
    Except.error "unique constraint violated on chat_id"
  else if positiveDurationsCheck r && validConfidenceCheck r && validEstimatesCheck r then
    Except.ok (store ++ [r])
  else
    Except.error "check constraint violated"

/-- `datetime.fromtimestamp(t).date()`: the calendar date of a timestamp,
as a day number (days since the epoch). -/
def dateOfTimestamp (t : ℚ) : ℤ := ⌊t / 86400⌋

/-- The chat data dict built by `_fetch_chats_for_date` (lines 246-257);
`chat = none` models a falsy or `messages`-less `chat.chat` payload. -/
structure ChatData where
  id : String
  user_id : String
  title : String
  chat : Option (List Message)
  created_at : ℚ
  updated_at : ℚ
deriving DecidableEq, Repr

/-- The `ChatAnalysisResult` pydantic record (analytics_tables.py, lines
409-422) minus the wall-clock-only `analysis_id`/`llm_cost` bookkeeping. -/
structure ChatAnalysisResultM where
  chat_id : String
  chat_date : ℤ
  user_id : String
  time_saved_minutes : ℤ
  active_duration_minutes : ℤ
  manual_time_most_likely : ℤ
  message_count : ℤ
  confidence_level : ℤ
deriving DecidableEq, Repr

/-- The `chat_analysis` row stored by `_store_analysis_results` for one
analyzed chat (lines 832-849). -/
def analysisRowOf (conv : ChatData) (chat_date : ℤ) (tm : TimeMetricsM)
    (te : TimeEstimatesM) (time_saved : ℤ) (message_count : ℤ) : ChatAnalysisRow :=
  { chat_id := conv.id
    user_id := conv.user_id
    first_message_at := tm.first_message_at
    last_message_at := tm.last_message_at
    total_duration_minutes := tm.total_duration_minutes
    active_duration_minutes := tm.active_duration_minutes
    idle_time_minutes := tm.idle_time_minutes
    manual_time_low := te.low
    manual_time_most_likely := te.most_likely
    manual_time_high := te.high
    confidence_level := te.confidence
    time_saved_minutes := time_saved
    message_count := message_count
    chat_date := chat_date }

/-- `AnalyticsProcessor._analyze_chat` (lines 265-372). `now` feeds the
degenerate branch of the metrics; `llm` is the outcome of
`_estimate_manual_time` (`none` = any of its failure paths, all of which the
source maps to `None`). Every internal exception, including a rejected
insert, is caught by the outer `try` and yields `None` with no stored row. -/
def _analyze_chat (now : ℚ) (store : List ChatAnalysisRow) (conv : ChatData)
    (llm : Option LlmResponse) : Option ChatAnalysisResultM × List ChatAnalysisRow :=
  match conv.chat with
  | none => (none, store)
  | some messages =>
    if messages = [] then (none, store)
    else
      let tm := _calculate_time_metrics now messages conv.created_at conv.updated_at
      match llm with
      | none => (none, store)
      | some resp =>
        let te := _parse_time_estimates resp
        let time_saved := max 0 (te.most_likely - tm.active_duration_minutes)
        let chat_date := dateOfTimestamp conv.created_at
        let row := analysisRowOf conv chat_date tm te time_saved messages.length
        match insertChatAnalysis store row with
        | Except.error _ => (none, store)
        | Except.ok store2 =>
          (some { chat_id := conv.id
                  chat_date := chat_date
                  user_id := conv.user_id
                  time_saved_minutes := time_saved
                  active_duration_minutes := tm.active_duration_minutes
                  manual_time_most_likely := te.most_likely
                  message_count := messages.length
                  confidence_level := te.confidence }, store2)

/-- One row of the `daily_aggregates` table (analytics_tables.py, lines
156-193); `user_id = none` is the NULL "global" scope. -/
structure DailyAggregateRow where
  analysis_date : ℤ
  user_id : Option String
  chat_count : ℤ
  message_count : ℤ
  total_active_time : ℤ
  total_manual_time_estimated : ℤ
  total_time_saved : ℤ
  avg_confidence_level : ℚ
deriving DecidableEq, Repr

/-- Append `x` to the group of key `k`, creating the group at the end when
the key is new: one step of Python dict grouping in insertion order. -/
def addToGroup {K V : Type} [DecidableEq K] (k : K) (x : V) :
    List (K × List V) → List (K × List V)
  | [] => [(k, [x])]
  | (k2, vs) :: rest =>
    if k2 = k then (k2, vs ++ [x]) :: rest else (k2, vs) :: addToGroup k x rest

/-- Grouping a list by a key in first-occurrence order, as the
`results_by_date` / `results_by_user` dict loops build it. -/
def groupByKey {K V : Type} [DecidableEq K] (key : V → K) (l : List V) :
    List (K × List V) :=
  l.foldl (fun acc v => addToGroup (key v) v acc) []

/-- Batch chat count `total_chats = len(date_results)` as an integer. -/
def batchChatCount (rs : List ChatAnalysisResultM) : ℤ := rs.length

/-- The batch mean confidence
`sum(r.confidence_level for r in rs) / len(rs)` (float division). -/
def batchAvgConfidence (rs : List ChatAnalysisResultM) : ℚ :=
  (rs.map (fun r => (r.confidence_level : ℚ))).sum / (rs.length : ℚ)

/-- `db.query(...).filter_by(analysis_date=d, user_id=None).first()` match. -/
def isGlobalRow (d : ℤ) (r : DailyAggregateRow) : Bool :=
  r.analysis_date == d && r.user_id == none

/-- `db.query(...).filter_by(analysis_date=d, user_id=u).first()` match. -/
def isUserRow (d : ℤ) (u : String) (r : DailyAggregateRow) : Bool :=
  r.analysis_date == d && r.user_id == some u

/-- Replace the first row satisfying `p` by its image under `f`: the ORM
in-place mutation of the row returned by `.first()`. -/
def updateFirst {V : Type} (p : V → Bool) (f : V → V) : List V → List V
  | [] => []
  | r :: rest => if p r then f r :: rest else r :: updateFirst p f rest

/-- The mutation of an existing global aggregate row (lines 942-958):
add all counts and sums, then recompute the running average confidence with
`existing_weight = chat_count_after_update - total_chats`; the weighted
formula is used only when that weight is positive. -/
def mergeGlobalAggregate (rs : List ChatAnalysisResultM) (row : DailyAggregateRow) :
    DailyAggregateRow :=
  let total_chats := batchChatCount rs
  let newCount := row.chat_count + total_chats
  let existing_weight := newCount - total_chats
  { row with
    chat_count := newCount
    message_count := row.message_count + (rs.map (fun r => r.message_count)).sum
    total_time_saved := row.total_time_saved + (rs.map (fun r => r.time_saved_minutes)).sum
    total_active_time := row.total_active_time + (rs.map (fun r => r.active_duration_minutes)).sum
    total_manual_time_estimated :=
      row.total_manual_time_estimated + (rs.map (fun r => r.manual_time_most_likely)).sum
    avg_confidence_level :=
      if 0 < existing_weight then
        (row.avg_confidence_level * (existing_weight : ℚ)
          + batchAvgConfidence rs * (total_chats : ℚ)) / (newCount : ℚ)
      else batchAvgConfidence rs }

/-- The mutation of an existing per-user aggregate row (lines 1001-1010):
add all counts and sums, then set `avg_confidence_level` to the new batch's
average (the source overwrites it, with no weighting). -/
def mergeUserAggregate (rs : List ChatAnalysisResultM) (row : DailyAggregateRow) :
    DailyAggregateRow :=
  { row with
    chat_count := row.chat_count + batchChatCount rs
    total_time_saved := row.total_time_saved + (rs.map (fun r => r.time_saved_minutes)).sum
    message_count := row.message_count + (rs.map (fun r => r.message_count)).sum
    total_active_time := row.total_active_time + (rs.map (fun r => r.active_duration_minutes)).sum
    total_manual_time_estimated :=
      row.total_manual_time_estimated + (rs.map (fun r => r.manual_time_most_likely)).sum
    avg_confidence_level := batchAvgConfidence rs }

/-- The fresh aggregate row created when no row exists for the key
(lines 960-974 for the global scope, lines 1011-1026 per user). -/
def newAggregateRow (d : ℤ) (user : Option String) (rs : List ChatAnalysisResultM) :
    DailyAggregateRow :=
  { analysis_date := d
    user_id := user
    chat_count := batchChatCount rs
    message_count := (rs.map (fun r => r.message_count)).sum
    total_time_saved := (rs.map (fun r => r.time_saved_minutes)).sum
    total_active_time := (rs.map (fun r => r.active_duration_minutes)).sum
    total_manual_time_estimated := (rs.map (fun r => r.manual_time_most_likely)).sum
    avg_confidence_level := batchAvgConfidence rs }

/-- Upsert of the global aggregate row for one occurrence-date group. -/
def upsertGlobalAggregate (store : List DailyAggregateRow) (d : ℤ)
    (rs : List ChatAnalysisResultM) : List DailyAggregateRow :=
  if store.any (isGlobalRow d) then
    updateFirst (isGlobalRow d) (mergeGlobalAggregate rs) store
  else store ++ [newAggregateRow d none rs]

/-- Upsert of one user's aggregate row for one occurrence-date group. -/
def upsertUserAggregate (store : List DailyAggregateRow) (d : ℤ) (u : String)
    (rs : List ChatAnalysisResultM) : List DailyAggregateRow :=
  if store.any (isUserRow d u) then
    updateFirst (isUserRow d u) (mergeUserAggregate rs) store
  else store ++ [newAggregateRow d (some u) rs]

/-- `AnalyticsProcessor._update_daily_aggregates` (lines 910-1035): no-op on
an empty result list; otherwise group by each result's own `chat_date`
(`target_date` is received but appears only in log output), upsert the
global row of each date, then group the date's results by user and upsert
each per-user row. The model's result list holds only realized results, so
the source's `[r for r in results if r is not None]` filter is the identity. -/
def _update_daily_aggregates (_target_date : ℤ) (store : List DailyAggregateRow)
    (results : List ChatAnalysisResultM) : List DailyAggregateRow :=
  if results = [] then store
  else
    (groupByKey (fun r => r.chat_date) results).foldl
      (fun st group =>
        let st1 := upsertGlobalAggregate st group.1 group.2
        (groupByKey (fun r => r.user_id) group.2).foldl
          (fun st2 g2 => upsertUserAggregate st2 group.1 g2.1 g2.2) st1)
      store

/-- One candidate chat of a batch, as the `for i, chat_data in ...` loop
sees it: its fetched data and the outcome of its external LLM call, or an
item whose loop body raises (the `except Exception` arm, lines 140-143). -/
inductive BatchItem
  | item (conv : ChatData) (llm : Option LlmResponse)
  | raises
deriving DecidableEq, Repr

/-- The mutable state of the processing loop of `process_chats_for_date`:
`results`, `processed_count`, `failed_count` (lines 112-114) and the
`chat_analysis` store the per-chat inserts write to. -/
structure BatchAcc where
  results : List ChatAnalysisResultM
  processed_count : ℕ
  failed_count : ℕ
  store : List ChatAnalysisRow
deriving Repr

/-- One iteration of the processing loop (lines 118-143): a raising body
increments `failed_count` and continues; otherwise `_analyze_chat` either
appends a result and increments `processed_count`, or increments
`failed_count`. -/
def processStep (now : ℚ) (acc : BatchAcc) (it : BatchItem) : BatchAcc :=
  match it with
  | BatchItem.raises => { acc with failed_count := acc.failed_count + 1 }
  | BatchItem.item conv llm =>
    match _analyze_chat now acc.store conv llm with
    | (some r, st) =>
      { acc with
        results := acc.results ++ [r]
        processed_count := acc.processed_count + 1
        store := st }
    | (none, st) => { acc with failed_count := acc.failed_count + 1, store := st }

/-- The outcome of one batch run: the final `ProcessingLog` status and
counts plus the two stores. -/
structure RunOutcome where
  status : String
  processed_count : ℕ
  failed_count : ℕ
  results : List ChatAnalysisResultM
  chatStore : List ChatAnalysisRow
  aggStore : List DailyAggregateRow
deriving Repr

/-- `AnalyticsProcessor.process_chats_for_date` (lines 67-224): an empty
fetch completes immediately with zero counts; otherwise every chat is
processed with per-item isolation, the daily aggregates are updated from
the collected results, and the log is completed with status `completed`.
The model's fetch and aggregation are total functions, so the
`except` branch that marks the run `failed` (lines 217-224) is unreachable
here; per-chat errors never take that branch in the source either. -/
def process_chats_for_date (now : ℚ) (target_date : ℤ)
    (chatStore : List ChatAnalysisRow) (aggStore : List DailyAggregateRow)
    (items : List BatchItem) : RunOutcome :=
  if items = [] then
    { status := "completed"
      processed_count := 0
      failed_count := 0
      results := []
      chatStore := chatStore
      aggStore := aggStore }
  else
    let acc := items.foldl (processStep now)
      { results := [], processed_count := 0, failed_count := 0, store := chatStore }
    let aggStore2 := _update_daily_aggregates target_date aggStore acc.results
    { status := "completed"
      processed_count := acc.processed_count
      failed_count := acc.failed_count
      results := acc.results
      chatStore := acc.store
      aggStore := aggStore2 }

/-! Helper lemmas about the numeric primitives. -/

theorem pyInt_of_nonneg {q : ℚ} (h : 0 ≤ q) : pyInt q = ⌊q⌋ := by
  simp [pyInt, h]

theorem pyInt_nonneg {q : ℚ} (h : 0 ≤ q) : 0 ≤ pyInt q := by
  rw [pyInt_of_nonneg h]
  exact Int.floor_nonneg.mpr h

theorem pyInt_mono {p q : ℚ} (hp : 0 ≤ p) (hpq : p ≤ q) : pyInt p ≤ pyInt q := by
  rw [pyInt_of_nonneg hp, pyInt_of_nonneg (hp.trans hpq)]
  exact Int.floor_le_floor hpq

theorem gapContrib_nonneg {a b : ℚ} (h : a ≤ b) : 0 ≤ gapContrib a b := by
  unfold gapContrib
  split
  · exact div_nonneg (by linarith) (by norm_num)
  · exact le_refl 0

theorem gapContrib_le {a b : ℚ} (h : a ≤ b) : gapContrib a b ≤ (b - a) / 60 := by
  unfold gapContrib
  split
  · exact le_refl _
  · exact div_nonneg (by linarith) (by norm_num)

theorem activeSum_nonneg : ∀ {l : List ℚ}, l.Chain' (· ≤ ·) → 0 ≤ activeSum l
  | [], _ => le_refl 0
  | [_], _ => le_refl 0
  | a :: b :: rest, h => by
    have hab : a ≤ b := (List.chain'_cons.mp h).1
    have ht : (b :: rest).Chain' (· ≤ ·) := (List.chain'_cons.mp h).2
    have h1 := activeSum_nonneg ht
    have h2 := gapContrib_nonneg hab
    show 0 ≤ gapContrib a b + activeSum (b :: rest)
    linarith

theorem activeSum_le :
    ∀ (l : List ℚ) (a : ℚ), (a :: l).Chain' (· ≤ ·) →
      activeSum (a :: l) ≤ (l.foldl max a - a) / 60
  | [], a, _ => by simp [activeSum]
  | b :: t, a, h => by
    have hab : a ≤ b := (List.chain'_cons.mp h).1
    have ht : (b :: t).Chain' (· ≤ ·) := (List.chain'_cons.mp h).2
    have ih := activeSum_le t b ht
    have hfold : (b :: t).foldl max a = t.foldl max b := by
      rw [List.foldl_cons, max_eq_right hab]
    have hg : gapContrib a b ≤ (b - a) / 60 := gapContrib_le hab
    have hstep : activeSum (a :: b :: t) = gapContrib a b + activeSum (b :: t) := rfl
    rw [hstep, hfold]
    linarith

theorem foldl_min_le_init (l : List ℚ) : ∀ a : ℚ, l.foldl min a ≤ a := by
  induction l with
  | nil => intro a; exact le_refl a
  | cons b t ih =>
    intro a
    calc (b :: t).foldl min a = t.foldl min (min a b) := by rw [List.foldl_cons]
    _ ≤ min a b := ih (min a b)
    _ ≤ a := min_le_left a b

theorem foldl_min_le_mem (l : List ℚ) : ∀ (a x : ℚ), x ∈ l → l.foldl min a ≤ x := by
  induction l with
  | nil => intro a x hx; cases hx
  | cons b t ih =>
    intro a x hx
    rw [List.foldl_cons]
    rcases List.mem_cons.mp hx with h | h
    · subst h
      exact (foldl_min_le_init t (min a x)).trans (min_le_right a x)
    · exact ih (min a b) x h

theorem foldl_min_mem (l : List ℚ) : ∀ a : ℚ, l.foldl min a = a ∨ l.foldl min a ∈ l := by
  induction l with
  | nil => intro a; exact Or.inl rfl
  | cons b t ih =>
    intro a
    rw [List.foldl_cons]
    rcases ih (min a b) with h | h
    · rcases min_cases a b with ⟨he, _⟩ | ⟨he, _⟩
      · exact Or.inl (h.trans he)
      · exact Or.inr (List.mem_cons.mpr (Or.inl (h.trans he)))
    · exact Or.inr (List.mem_cons.mpr (Or.inr h))

theorem init_le_foldl_max (l : List ℚ) : ∀ a : ℚ, a ≤ l.foldl max a := by
  induction l with
  | nil => intro a; exact le_refl a
  | cons b t ih =>
    intro a
    calc a ≤ max a b := le_max_left a b
    _ ≤ t.foldl max (max a b) := ih (max a b)
    _ = (b :: t).foldl max a := by rw [List.foldl_cons]

theorem mem_le_foldl_max (l : List ℚ) : ∀ (a x : ℚ), x ∈ l → x ≤ l.foldl max a := by
  induction l with
  | nil => intro a x hx; cases hx
  | cons b t ih =>
    intro a x hx
    rw [List.foldl_cons]
    rcases List.mem_cons.mp hx with h | h
    · subst h
      exact (le_max_right a x).trans (init_le_foldl_max t (max a x))
    · exact ih (max a b) x h

theorem foldl_max_mem (l : List ℚ) : ∀ a : ℚ, l.foldl max a = a ∨ l.foldl max a ∈ l := by
  induction l with
  | nil => intro a; exact Or.inl rfl
  | cons b t ih =>
    intro a
    rw [List.foldl_cons]
    rcases ih (max a b) with h | h
    · rcases max_cases a b with ⟨he, _⟩ | ⟨he, _⟩
      · exact Or.inl (h.trans he)
      · exact Or.inr (List.mem_cons.mpr (Or.inl (h.trans he)))
    · exact Or.inr (List.mem_cons.mpr (Or.inr h))

theorem pyMin_mem {l : List ℚ} (h : l ≠ []) : pyMin l ∈ l := by
  match l with
  | [] => exact absurd rfl h
  | a :: t =>
    show t.foldl min a ∈ a :: t
    rcases foldl_min_mem t a with he | he
    · rw [he]; exact List.mem_cons_self a t
    · exact List.mem_cons.mpr (Or.inr he)

theorem pyMin_le {l : List ℚ} (x : ℚ) (hx : x ∈ l) : pyMin l ≤ x := by
  match l with
  | a :: t =>
    show t.foldl min a ≤ x
    rcases List.mem_cons.mp hx with h | h
    · exact h ▸ foldl_min_le_init t a
    · exact foldl_min_le_mem t a x h

theorem pyMax_mem {l : List ℚ} (h : l ≠ []) : pyMax l ∈ l := by
  match l with
  | [] => exact absurd rfl h
  | a :: t =>
    show t.foldl max a ∈ a :: t
    rcases foldl_max_mem t a with he | he
    · rw [he]; exact List.mem_cons_self a t
    · exact List.mem_cons.mpr (Or.inr he)

theorem le_pyMax {l : List ℚ} (x : ℚ) (hx : x ∈ l) : x ≤ pyMax l := by
  match l with
  | a :: t =>
    show x ≤ t.foldl max a
    rcases List.mem_cons.mp hx with h | h
    · exact h ▸ init_le_foldl_max t a
    · exact mem_le_foldl_max t a x h

theorem pyMin_le_pyMax {l : List ℚ} (h : l ≠ []) : pyMin l ≤ pyMax l :=
  (pyMin_le _ (pyMax_mem h)).trans (le_refl _)

theorem pyMin_perm {l l2 : List ℚ} (h : l.Perm l2) : pyMin l = pyMin l2 := by
  match l, l2 with
  | [], l2 => rw [h.nil_eq]
  | a :: t, [] => exact absurd h.symm.nil_eq (by simp)
  | a :: t, b :: t2 =>
    have h1 : (a :: t) ≠ [] := by simp
    have h2 : (b :: t2) ≠ [] := by simp
    exact le_antisymm
      (pyMin_le _ (h.mem_iff.mpr (pyMin_mem h2)))
      (pyMin_le _ (h.mem_iff.mp (pyMin_mem h1)))

theorem pyMax_perm {l l2 : List ℚ} (h : l.Perm l2) : pyMax l = pyMax l2 := by
  match l, l2 with
  | [], l2 => rw [h.nil_eq]
  | a :: t, [] => exact absurd h.symm.nil_eq (by simp)
  | a :: t, b :: t2 =>
    have h1 : (a :: t) ≠ [] := by simp
    have h2 : (b :: t2) ≠ [] := by simp
    exact le_antisymm
      (le_pyMax _ (h.mem_iff.mp (pyMax_mem h1)))
      (le_pyMax _ (h.mem_iff.mpr (pyMax_mem h2)))

/-- Any permutation sorts to the same list. -/
theorem insertionSort_eq_of_perm {l l2 : List ℚ} (h : l.Perm l2) :
    l.insertionSort (· ≤ ·) = l2.insertionSort (· ≤ ·) :=
  List.eq_of_perm_of_sorted
    (((List.perm_insertionSort _ l).trans h).trans (List.perm_insertionSort _ l2).symm)
    (List.sorted_insertionSort _ l) (List.sorted_insertionSort _ l2)

theorem chain_insertionSort (l : List ℚ) :
    (l.insertionSort (· ≤ ·)).Chain' (· ≤ ·) := by
  rw [List.chain'_iff_pairwise]
  exact List.sorted_insertionSort _ l

theorem calculate_active_duration_nil : _calculate_active_duration ([] : List ℚ) = 0 := rfl

theorem calculate_active_duration_nonneg (ts : List ℚ) :
    0 ≤ _calculate_active_duration ts := by
  unfold _calculate_active_duration
  split
  · exact le_refl 0
  · exact pyInt_nonneg (activeSum_nonneg (chain_insertionSort ts))

/-- The kept gaps never exceed the full first-to-last span in minutes. -/
theorem calculate_active_duration_le (ts : List ℚ) (hne : ts ≠ []) :
    _calculate_active_duration ts ≤ pyInt ((pyMax ts - pyMin ts) / 60) := by
  have hspan : 0 ≤ (pyMax ts - pyMin ts) / 60 :=
    div_nonneg (by linarith [pyMin_le_pyMax hne]) (by norm_num)
  unfold _calculate_active_duration
  split
  · exact pyInt_nonneg hspan
  · apply pyInt_mono (activeSum_nonneg (chain_insertionSort ts))
    have hperm := List.perm_insertionSort (· ≤ · : ℚ → ℚ → Prop) ts
    have hsorted := List.sorted_insertionSort (· ≤ · : ℚ → ℚ → Prop) ts
    have hchain := chain_insertionSort ts
    rw [← pyMax_perm hperm, ← pyMin_perm hperm]
    cases hs : ts.insertionSort (· ≤ ·) with
    | nil =>
      rw [hs] at hperm
      exact absurd hperm.nil_eq.symm hne
    | cons a l =>
      rw [hs] at hsorted hchain
      have hmin : pyMin (a :: l) = a := by
        refine le_antisymm (pyMin_le a (List.mem_cons_self a l)) ?_
        rcases List.mem_cons.mp (pyMin_mem (List.cons_ne_nil a l)) with h | h
        · rw [h]
        · exact List.rel_of_sorted_cons hsorted _ h
      have hmax : pyMax (a :: l) = l.foldl max a := rfl
      rw [hmin, hmax]
      exact activeSum_le l a hchain

/-! Claim theorems. -/

/-- C8: for every message list and fallback timestamps with
`created_at ≤ updated_at`, the computed TimeMetrics satisfy
`0 ≤ active_duration_minutes ≤ total_duration_minutes` and
`idle_time_minutes = total_duration_minutes - active_duration_minutes`,
so idle time is never negative. -/
theorem time_metrics_invariant (now : ℚ) (messages : List Message)
    (created_at updated_at : ℚ) (h : created_at ≤ updated_at) :
    0 ≤ (_calculate_time_metrics now messages created_at updated_at).active_duration_minutes ∧
    (_calculate_time_metrics now messages created_at updated_at).active_duration_minutes ≤
      (_calculate_time_metrics now messages created_at updated_at).total_duration_minutes ∧
    (_calculate_time_metrics now messages created_at updated_at).idle_time_minutes =
      (_calculate_time_metrics now messages created_at updated_at).total_duration_minutes -
        (_calculate_time_metrics now messages created_at updated_at).active_duration_minutes := by
  by_cases hm : messages = []
  · simp [_calculate_time_metrics, hm]
  · by_cases hts : messages.filterMap (fun m => m.timestamp) = []
    · have htot : 0 ≤ pyInt ((updated_at - created_at) / 60) :=
        pyInt_nonneg (div_nonneg (by linarith) (by norm_num))
      simp only [_calculate_time_metrics, if_neg hm, hts, if_pos rfl, if_true, ite_true,
        calculate_active_duration_nil]
      refine ⟨le_refl 0, htot, ?_⟩
      omega
    · have ha0 := calculate_active_duration_nonneg (messages.filterMap (fun m => m.timestamp))
      have hle := calculate_active_duration_le (messages.filterMap (fun m => m.timestamp)) hts
      simp only [_calculate_time_metrics, if_neg hm, if_neg hts]
      refine ⟨ha0, hle, ?_⟩
      omega

/-- The four-message scenario of the spec: timestamps at minutes
0, 5, 8, 25 (seconds 0, 300, 480, 1500). -/
def scenarioMessages : List Message :=
  [ { role := some "user", content := "m1", timestamp := some 0 },
    { role := some "assistant", content := "m2", timestamp := some 300 },
    { role := some "user", content := "m3", timestamp := some 480 },
    { role := some "assistant", content := "m4", timestamp := some 1500 } ]

/-- C3: active duration sorts the timestamps and sums exactly the
consecutive gaps at most the 10-minute idle threshold: fewer than two
timestamps give zero; a two-timestamp gap within (or exactly at) the
threshold is counted, one beyond it contributes zero; and the scenario with
messages at minutes 0, 5, 8, 25 yields active 8, total 25, idle 17. -/
theorem active_duration_gap_rule :
    (∀ ts : List ℚ, ts.length < 2 → _calculate_active_duration ts = 0) ∧
    (∀ a b : ℚ, a ≤ b → (b - a) / 60 ≤ 10 →
      _calculate_active_duration [a, b] = pyInt ((b - a) / 60)) ∧
    (∀ a b : ℚ, a ≤ b → 10 < (b - a) / 60 → _calculate_active_duration [a, b] = 0) ∧
    (_calculate_time_metrics 0 scenarioMessages 0 1500).active_duration_minutes = 8 ∧
    (_calculate_time_metrics 0 scenarioMessages 0 1500).total_duration_minutes = 25 ∧
    (_calculate_time_metrics 0 scenarioMessages 0 1500).idle_time_minutes = 17 := by
  refine ⟨?_, ?_, ?_, ?_, ?_, ?_⟩
  · intro ts hlen
    unfold _calculate_active_duration
    rw [if_pos hlen]
  · intro a b hab hthr
    have hsort : ([a, b] : List ℚ).insertionSort (· ≤ ·) = [a, b] := by
      simp [List.insertionSort, List.orderedInsert, hab]
    unfold _calculate_active_duration
    rw [if_neg (by simp), hsort]
    have : activeSum [a, b] = (b - a) / 60 := by
      simp [activeSum, gapContrib, idle_threshold_minutes, hthr]
    rw [this]
  · intro a b hab hthr
    have hsort : ([a, b] : List ℚ).insertionSort (· ≤ ·) = [a, b] := by
      simp [List.insertionSort, List.orderedInsert, hab]
    unfold _calculate_active_duration
    rw [if_neg (by simp), hsort]
    have : activeSum [a, b] = 0 := by
      simp [activeSum, gapContrib, idle_threshold_minutes, not_le.mpr hthr]
    rw [this]
    simp [pyInt]
  all_goals {
    have h1 : scenarioMessages.filterMap (fun m => m.timestamp) =
        ([0, 300, 480, 1500] : List ℚ) := by
      simp [scenarioMessages]
    have h2 : (([0, 300, 480, 1500] : List ℚ)).insertionSort (· ≤ ·) =
        [0, 300, 480, 1500] := by
      norm_num [List.insertionSort, List.orderedInsert]
    have h3 : _calculate_active_duration ([0, 300, 480, 1500] : List ℚ) = 8 := by
      rw [_calculate_active_duration, if_neg (by norm_num), h2]
      norm_num [activeSum, gapContrib, idle_threshold_minutes, pyInt]
    have h5 : pyMin ([0, 300, 480, 1500] : List ℚ) = 0 := by
      norm_num [pyMin]
    have h6 : pyMax ([0, 300, 480, 1500] : List ℚ) = 1500 := by
      norm_num [pyMax]
    have hne : scenarioMessages ≠ [] := by simp [scenarioMessages]
    have hne2 : ([0, 300, 480, 1500] : List ℚ) ≠ [] := by simp
    simp only [_calculate_time_metrics, if_neg hne, h1, if_neg hne2, h3, h5, h6]
    all_goals norm_num [pyInt]
  }

/-- Witness for the gap rule: one timestamp gives zero; a 10-minute gap is
counted in full; an 11-minute gap contributes nothing. -/
theorem active_duration_gap_rule_witness :
    _calculate_active_duration [(5 : ℚ)] = 0 ∧
    _calculate_active_duration [(0 : ℚ), 600] = pyInt ((600 - 0) / 60) ∧
    _calculate_active_duration [(0 : ℚ), 660] = 0 :=
  ⟨active_duration_gap_rule.1 [5] (by norm_num),
   active_duration_gap_rule.2.1 0 600 (by norm_num) (by norm_num),
   active_duration_gap_rule.2.2.1 0 660 (by norm_num) (by norm_num)⟩

/-- Witness messages for the TimeMetrics invariant: a chat with two
timestamps twelve minutes apart. -/
def invariantWitnessMessages : List Message :=
  [ { role := some "user", content := "q", timestamp := some 0 },
    { role := some "assistant", content := "a", timestamp := some 720 } ]

/-- Witness for the TimeMetrics invariant at a concrete chat. -/
theorem time_metrics_invariant_witness :
    0 ≤ (_calculate_time_metrics 0 invariantWitnessMessages 0 720).active_duration_minutes ∧
    (_calculate_time_metrics 0 invariantWitnessMessages 0 720).active_duration_minutes ≤
      (_calculate_time_metrics 0 invariantWitnessMessages 0 720).total_duration_minutes ∧
    (_calculate_time_metrics 0 invariantWitnessMessages 0 720).idle_time_minutes =
      (_calculate_time_metrics 0 invariantWitnessMessages 0 720).total_duration_minutes -
        (_calculate_time_metrics 0 invariantWitnessMessages 0 720).active_duration_minutes :=
  time_metrics_invariant 0 invariantWitnessMessages 0 720 (by norm_num)

/-- C10: the time computations depend only on the multiset of timestamps:
`_calculate_active_duration` gives the same value on any permutation of the
timestamp list (it sorts internally), and `_calculate_time_metrics` gives
identical metrics on any permutation of the message list (first/last are
taken with min/max). -/
theorem metrics_permutation_invariant :
    (∀ ts ts2 : List ℚ, ts.Perm ts2 →
      _calculate_active_duration ts = _calculate_active_duration ts2) ∧
    (∀ (now : ℚ) (msgs msgs2 : List Message) (created_at updated_at : ℚ), msgs.Perm msgs2 →
      _calculate_time_metrics now msgs created_at updated_at =
        _calculate_time_metrics now msgs2 created_at updated_at) := by
  have hact : ∀ ts ts2 : List ℚ, ts.Perm ts2 →
      _calculate_active_duration ts = _calculate_active_duration ts2 := by
    intro ts ts2 hp
    unfold _calculate_active_duration
    rw [insertionSort_eq_of_perm hp, hp.length_eq]
  refine ⟨hact, ?_⟩
  intro now msgs msgs2 created_at updated_at hp
  by_cases hm : msgs = []
  · subst hm
    rw [← hp.nil_eq]
  · have hm2 : msgs2 ≠ [] := by
      intro h
      subst h
      exact hm hp.eq_nil
    have hts : (msgs.filterMap (fun m => m.timestamp)).Perm
        (msgs2.filterMap (fun m => m.timestamp)) := hp.filterMap _
    by_cases he : msgs.filterMap (fun m => m.timestamp) = []
    · have he2 : msgs2.filterMap (fun m => m.timestamp) = [] := by
        rw [he] at hts
        exact hts.nil_eq.symm
      simp only [_calculate_time_metrics, if_neg hm, if_neg hm2, he, he2]
    · have he2 : msgs2.filterMap (fun m => m.timestamp) ≠ [] := by
        intro h
        rw [h] at hts
        exact he hts.eq_nil
      simp only [_calculate_time_metrics, if_neg hm, if_neg hm2, if_neg he, if_neg he2]
      rw [pyMin_perm hts, pyMax_perm hts, hact _ _ hts]

/-- Two-message chat, assistant reply listed first. -/
def permMessagesA : List Message :=
  [ { role := some "assistant", content := "a", timestamp := some 600 },
    { role := some "user", content := "q", timestamp := some 0 } ]

/-- The same two messages in chronological order. -/
def permMessagesB : List Message :=
  [ { role := some "user", content := "q", timestamp := some 0 },
    { role := some "assistant", content := "a", timestamp := some 600 } ]

/-- Witness for permutation invariance on a concrete swapped pair. -/
theorem metrics_permutation_invariant_witness :
    _calculate_active_duration [(600 : ℚ), 0] = _calculate_active_duration [(0 : ℚ), 600] ∧
    _calculate_time_metrics 0 permMessagesA 0 600 =
      _calculate_time_metrics 0 permMessagesB 0 600 :=
  ⟨metrics_permutation_invariant.1 [600, 0] [0, 600] (List.Perm.swap 0 600 []),
   metrics_permutation_invariant.2 0 permMessagesA permMessagesB 0 600
     (List.Perm.swap _ _ [])⟩

/-- Shape of every successful `_analyze_chat` call: the chat had a nonempty
message list, the LLM call succeeded, the insert succeeded, and the returned
record carries exactly the computed metrics, estimates and time saved. -/
theorem analyze_chat_success {now : ℚ} {store : List ChatAnalysisRow} {conv : ChatData}
    {llm : Option LlmResponse} {res : ChatAnalysisResultM} {st2 : List ChatAnalysisRow}
    (h : _analyze_chat now store conv llm = (some res, st2)) :
    ∃ (messages : List Message) (resp : LlmResponse),
      conv.chat = some messages ∧ messages ≠ [] ∧ llm = some resp ∧
      insertChatAnalysis store
        (analysisRowOf conv (dateOfTimestamp conv.created_at)
          (_calculate_time_metrics now messages conv.created_at conv.updated_at)
          (_parse_time_estimates resp)
          (max 0 ((_parse_time_estimates resp).most_likely -
            (_calculate_time_metrics now messages conv.created_at
              conv.updated_at).active_duration_minutes))
          messages.length) = Except.ok st2 ∧
      res = { chat_id := conv.id
              chat_date := dateOfTimestamp conv.created_at
              user_id := conv.user_id
              time_saved_minutes := max 0 ((_parse_time_estimates resp).most_likely -
                (_calculate_time_metrics now messages conv.created_at
                  conv.updated_at).active_duration_minutes)
              active_duration_minutes := (_calculate_time_metrics now messages conv.created_at
                conv.updated_at).active_duration_minutes
              manual_time_most_likely := (_parse_time_estimates resp).most_likely
              message_count := (messages.length : ℤ)
              confidence_level := (_parse_time_estimates resp).confidence } := by
  unfold _analyze_chat at h
  split at h
  · simp at h
  next messages heq =>
    split at h
    · simp at h
    next hm =>
      split at h
      · simp at h
      next resp =>
        dsimp only at h
        split at h
        next e hins => simp at h
        next stx hins =>
          rw [Prod.mk.injEq] at h
          obtain ⟨h1, h2⟩ := h
          refine ⟨messages, resp, heq, hm, rfl, ?_, ?_⟩
          · rw [hins, h2]
          · exact ((Option.some.injEq _ _).mp h1).symm

/-- C1: for every analyzed chat, the computed time saved equals
`max 0 (most_likely_estimate - active_duration_minutes)`, is never negative,
and is the value both returned in the per-chat result and stored in the new
ChatAnalysis row. -/
theorem time_saved_formula (now : ℚ) (store : List ChatAnalysisRow) (conv : ChatData)
    (llm : Option LlmResponse) (res : ChatAnalysisResultM) (st2 : List ChatAnalysisRow)
    (h : _analyze_chat now store conv llm = (some res, st2)) :
    res.time_saved_minutes =
      max 0 (res.manual_time_most_likely - res.active_duration_minutes) ∧
    0 ≤ res.time_saved_minutes ∧
    ∃ row, st2 = store ++ [row] ∧ row.time_saved_minutes = res.time_saved_minutes := by
  obtain ⟨messages, resp, hc, hm, hl, hins, hres⟩ := analyze_chat_success h
  subst hres
  refine ⟨rfl, le_max_left 0 _, ?_⟩
  unfold insertChatAnalysis at hins
  split at hins
  · simp at hins
  · split at hins
    · rw [Except.ok.injEq] at hins
      exact ⟨_, hins.symm, rfl⟩
    · simp at hins

/-- Messages of the concrete C1 witness chat. -/
def c1Messages : List Message :=
  [ { role := some "user", content := "q", timestamp := some 0 },
    { role := some "assistant", content := "a", timestamp := some 300 } ]

/-- The concrete C1 witness chat. -/
def c1Chat : ChatData :=
  { id := "chat-c1"
    user_id := "user-1"
    title := "demo"
    chat := some c1Messages
    created_at := 0
    updated_at := 600 }

/-- A well-formed LLM response for the C1 witness. -/
def c1Resp : LlmResponse :=
  { manual_time_low := some (JsonNum.num 30)
    manual_time_most_likely := some (JsonNum.num 60)
    manual_time_high := some (JsonNum.num 90)
    confidence_level := some (JsonNum.num 80) }

/-- The row the C1 witness chat stores. -/
def c1Row : ChatAnalysisRow :=
  { chat_id := "chat-c1"
    user_id := "user-1"
    first_message_at := 0
    last_message_at := 300
    total_duration_minutes := 5
    active_duration_minutes := 5
    idle_time_minutes := 0
    manual_time_low := 30
    manual_time_most_likely := 60
    manual_time_high := 90
    confidence_level := 80
    time_saved_minutes := 55
    message_count := 2
    chat_date := 0 }

/-- The per-chat result the C1 witness chat returns. -/
def c1Result : ChatAnalysisResultM :=
  { chat_id := "chat-c1"
    chat_date := 0
    user_id := "user-1"
    time_saved_minutes := 55
    active_duration_minutes := 5
    manual_time_most_likely := 60
    message_count := 2
    confidence_level := 80 }

/-- Evaluation of the time metrics of the concrete C1 witness chat. -/
theorem c1_metrics_eval :
    _calculate_time_metrics 0 c1Messages 0 600 =
      { first_message_at := 0
        last_message_at := 300
        total_duration_minutes := 5
        active_duration_minutes := 5
        idle_time_minutes := 0 } := by
  have h1 : c1Messages.filterMap (fun m => m.timestamp) = ([0, 300] : List ℚ) := by
    simp [c1Messages]
  have hne : c1Messages ≠ [] := by simp [c1Messages]
  have hne2 : (([0, 300] : List ℚ)) ≠ [] := by simp
  have hact : _calculate_active_duration ([0, 300] : List ℚ) = 5 := by
    rw [_calculate_active_duration, if_neg (by norm_num)]
    have hs : (([0, 300] : List ℚ)).insertionSort (· ≤ ·) = [0, 300] := by
      norm_num [List.insertionSort, List.orderedInsert]
    rw [hs]
    norm_num [activeSum, gapContrib, idle_threshold_minutes, pyInt]
  simp only [_calculate_time_metrics, if_neg hne, h1, if_neg hne2, hact]
  norm_num [pyMin, pyMax, pyInt]

/-- Evaluation of the estimate parse of the concrete C1 witness response. -/
theorem c1_estimates_eval :
    _parse_time_estimates c1Resp =
      { low := 30, most_likely := 60, high := 90, confidence := 80 } := by
  simp [c1Resp, _parse_time_estimates, getIntField]

/-- Evaluation of `_analyze_chat` on the concrete C1 witness chat. -/
theorem analyze_chat_c1_eval :
    _analyze_chat 0 [] c1Chat (some c1Resp) = (some c1Result, [c1Row]) := by
  have hne : c1Messages ≠ [] := by simp [c1Messages]
  simp only [_analyze_chat, c1Chat, if_neg hne, c1_metrics_eval, c1_estimates_eval]
  norm_num [analysisRowOf, insertChatAnalysis, positiveDurationsCheck,
    validConfidenceCheck, validEstimatesCheck, dateOfTimestamp, c1Result, c1Row,
    c1Messages]

/-- Witness for the time-saved formula: estimate 60, active 5 → saved 55. -/
theorem time_saved_formula_witness :
    c1Result.time_saved_minutes =
      max 0 (c1Result.manual_time_most_likely - c1Result.active_duration_minutes) ∧
    0 ≤ c1Result.time_saved_minutes ∧
    ∃ row, [c1Row] = ([] : List ChatAnalysisRow) ++ [row] ∧
      row.time_saved_minutes = c1Result.time_saved_minutes :=
  time_saved_formula 0 [] c1Chat (some c1Resp) c1Result [c1Row] analyze_chat_c1_eval

/-- An LLM response whose three estimates are in strictly decreasing order. -/
def outOfOrderResp : LlmResponse :=
  { manual_time_low := some (JsonNum.num 50)
    manual_time_most_likely := some (JsonNum.num 10)
    manual_time_high := some (JsonNum.num 5)
    confidence_level := some (JsonNum.num 80) }

/-- C4 counterexample: `_parse_time_estimates` does not reorder or reject an
out-of-order response — it returns a TimeEstimates with `low = 50`,
`most_likely = 10`, `high = 5`, violating `low ≤ most_likely ≤ high`, so the
parsing step does not clamp ordering violations. -/
theorem estimate_out_of_order_counterexample :
    _parse_time_estimates outOfOrderResp =
      { low := 50, most_likely := 10, high := 5, confidence := 80 } ∧
    ¬((_parse_time_estimates outOfOrderResp).low ≤
        (_parse_time_estimates outOfOrderResp).most_likely ∧
      (_parse_time_estimates outOfOrderResp).most_likely ≤
        (_parse_time_estimates outOfOrderResp).high) := by
  refine ⟨?_, ?_⟩
  · simp [outOfOrderResp, _parse_time_estimates, getIntField]
  · simp [outOfOrderResp, _parse_time_estimates, getIntField]

/-- C4 amended: the parsing step clamps each field independently —
every parsed TimeEstimate satisfies `0 ≤ low`, `0 ≤ most_likely`, `0 ≤ high`
and `0 ≤ confidence ≤ 100` — but it does not enforce
`low ≤ most_likely ≤ high`; that ordering is enforced only by the table's
`valid_estimates` check constraint, which rejects the insert of any row
violating it (a per-chat failure), so such estimates are never stored. -/
theorem estimate_clamping :
    (∀ resp : LlmResponse,
      0 ≤ (_parse_time_estimates resp).low ∧
      0 ≤ (_parse_time_estimates resp).most_likely ∧
      0 ≤ (_parse_time_estimates resp).high ∧
      0 ≤ (_parse_time_estimates resp).confidence ∧
      (_parse_time_estimates resp).confidence ≤ 100) ∧
    (∀ (store : List ChatAnalysisRow) (row : ChatAnalysisRow),
      validEstimatesCheck row = false →
      ∃ e, insertChatAnalysis store row = Except.error e) := by
  constructor
  · intro resp
    unfold _parse_time_estimates
    split
    · refine ⟨le_max_left 0 _, le_max_left 0 _, le_max_left 0 _, le_max_left 0 _, ?_⟩
      simp only [max_le_iff]
      exact ⟨by norm_num, min_le_left 100 _⟩
    · norm_num
  · intro store row hbad
    unfold insertChatAnalysis
    split
    · exact ⟨_, rfl⟩
    · rw [hbad]
      simp only [Bool.and_false]
      exact ⟨_, rfl⟩

/-- A syntactically valid but ordering-violating row for the C4 witness. -/
def outOfOrderRow : ChatAnalysisRow :=
  { chat_id := "chat-c4"
    user_id := "user-1"
    first_message_at := 0
    last_message_at := 0
    total_duration_minutes := 0
    active_duration_minutes := 0
    idle_time_minutes := 0
    manual_time_low := 50
    manual_time_most_likely := 10
    manual_time_high := 5
    confidence_level := 80
    time_saved_minutes := 10
    message_count := 1
    chat_date := 0 }

/-- Witness for the amended C4: concrete parse bounds and a concrete
rejected insert. -/
theorem estimate_clamping_witness :
    (0 ≤ (_parse_time_estimates outOfOrderResp).low ∧
     0 ≤ (_parse_time_estimates outOfOrderResp).most_likely ∧
     0 ≤ (_parse_time_estimates outOfOrderResp).high ∧
     0 ≤ (_parse_time_estimates outOfOrderResp).confidence ∧
     (_parse_time_estimates outOfOrderResp).confidence ≤ 100) ∧
    ∃ e, insertChatAnalysis [] outOfOrderRow = Except.error e :=
  ⟨estimate_clamping.1 outOfOrderResp,
   estimate_clamping.2 [] outOfOrderRow (by decide)⟩

/-- A successful insert appends the row and certifies that no stored row
had the same chat id. -/
theorem insert_ok_shape {store : List ChatAnalysisRow} {r : ChatAnalysisRow}
    {store2 : List ChatAnalysisRow}
    (h : insertChatAnalysis store r = Except.ok store2) :
    store2 = store ++ [r] ∧ (store.any fun x => x.chat_id == r.chat_id) = false := by
  unfold insertChatAnalysis at h
  split at h
  · simp at h
  next hany =>
    split at h
    · rw [Except.ok.injEq] at h
      exact ⟨h.symm, by simpa using hany⟩
    · simp at h

/-- C9: a second persistence attempt for an already-stored chat id is
rejected by the uniqueness constraint, and successful inserts preserve the
invariant that no two stored rows share a chat id — analyzing the same chat
id twice never produces two ChatAnalysis rows. -/
theorem chat_id_uniqueness :
    (∀ (store : List ChatAnalysisRow) (r : ChatAnalysisRow) (store2 : List ChatAnalysisRow),
      insertChatAnalysis store r = Except.ok store2 →
      ∀ r2 : ChatAnalysisRow, r2.chat_id = r.chat_id →
        ∃ e, insertChatAnalysis store2 r2 = Except.error e) ∧
    (∀ (store : List ChatAnalysisRow) (r : ChatAnalysisRow) (store2 : List ChatAnalysisRow),
      insertChatAnalysis store r = Except.ok store2 →
      store.Pairwise (fun a b => a.chat_id ≠ b.chat_id) →
      store2.Pairwise (fun a b => a.chat_id ≠ b.chat_id)) := by
  constructor
  · intro store r store2 h r2 h2
    obtain ⟨hshape, _⟩ := insert_ok_shape h
    subst hshape
    have hcond : ((store ++ [r]).any fun x => x.chat_id == r2.chat_id) = true := by
      simp [List.any_append, List.any_cons, h2]
    refine ⟨"unique constraint violated on chat_id", ?_⟩
    simp [insertChatAnalysis, hcond]
  · intro store r store2 h hpw
    obtain ⟨hshape, hany⟩ := insert_ok_shape h
    subst hshape
    rw [List.pairwise_append]
    refine ⟨hpw, List.pairwise_singleton _ _, ?_⟩
    intro a ha b hb
    rw [List.mem_singleton] at hb
    subst hb
    have := List.any_eq_false.mp hany a ha
    intro hcontra
    exact this (by simp [hcontra])

/-- A stored row for the C9 witness. -/
def c9Row : ChatAnalysisRow :=
  { chat_id := "chat-c9"
    user_id := "user-1"
    first_message_at := 0
    last_message_at := 0
    total_duration_minutes := 0
    active_duration_minutes := 0
    idle_time_minutes := 0
    manual_time_low := 10
    manual_time_most_likely := 20
    manual_time_high := 30
    confidence_level := 70
    time_saved_minutes := 20
    message_count := 1
    chat_date := 0 }

/-- A second row carrying the same chat id with different data. -/
def c9RowDup : ChatAnalysisRow :=
  { c9Row with user_id := "user-2", confidence_level := 60 }

/-- Evaluation of the first C9 insert. -/
theorem c9_insert_eval : insertChatAnalysis [] c9Row = Except.ok [c9Row] := by
  simp [insertChatAnalysis, positiveDurationsCheck, validConfidenceCheck,
    validEstimatesCheck, c9Row]

/-- Witness for chat-id uniqueness: re-inserting the stored id errors and a
singleton store keeps distinct ids. -/
theorem chat_id_uniqueness_witness :
    (∃ e, insertChatAnalysis [c9Row] c9RowDup = Except.error e) ∧
    ([c9Row] : List ChatAnalysisRow).Pairwise (fun a b => a.chat_id ≠ b.chat_id) :=
  ⟨chat_id_uniqueness.1 [] c9Row [c9Row] c9_insert_eval c9RowDup rfl,
   chat_id_uniqueness.2 [] c9Row [c9Row] c9_insert_eval List.Pairwise.nil⟩

/-- A failed LLM call (any of the `None` paths of `_estimate_manual_time`)
always makes `_analyze_chat` return `None` and store nothing. -/
theorem analyze_chat_llm_none (now : ℚ) (store : List ChatAnalysisRow) (conv : ChatData) :
    _analyze_chat now store conv none = (none, store) := by
  unfold _analyze_chat
  cases conv.chat with
  | none => rfl
  | some messages =>
    by_cases hm : messages = []
    · simp [hm]
    · simp [hm]

/-- A chat with a missing or empty message list always makes `_analyze_chat`
return `None` and store nothing, whatever the LLM would have said. -/
theorem analyze_chat_empty (now : ℚ) (store : List ChatAnalysisRow) (conv : ChatData)
    (llm : Option LlmResponse) (h : conv.chat = none ∨ conv.chat = some ([] : List Message)) :
    _analyze_chat now store conv llm = (none, store) := by
  rcases h with h | h <;> simp [_analyze_chat, h]

/-- C5 amended: a chat whose message list is empty or missing is excluded
from results — the Chat Analyzer returns `None` for it and stores nothing —
but the batch loop counts every `None` result in `failed_count`, so such a
chat is counted as failed (the `chats_skipped` column is never written). -/
theorem empty_chat_skip (now : ℚ) (store : List ChatAnalysisRow) (conv : ChatData)
    (llm : Option LlmResponse)
    (h : conv.chat = none ∨ conv.chat = some ([] : List Message)) :
    _analyze_chat now store conv llm = (none, store) ∧
    ∀ acc : BatchAcc, processStep now acc (BatchItem.item conv llm) =
      { acc with failed_count := acc.failed_count + 1 } := by
  refine ⟨analyze_chat_empty now store conv llm h, ?_⟩
  intro acc
  simp only [processStep, analyze_chat_empty now acc.store conv llm h]

/-- A chat whose payload has an empty message list. -/
def emptyChat : ChatData :=
  { id := "chat-empty"
    user_id := "user-1"
    title := "t"
    chat := some []
    created_at := 0
    updated_at := 0 }

/-- C5 counterexample: a run over one chat with an empty message list ends
with `failed_count = 1` (and `processed_count = 0`) — the skip IS counted in
the run's failed count, contradicting the claim that it is not. -/
theorem skip_counted_as_failed_counterexample :
    (_analyze_chat 0 [] emptyChat none).1 = none ∧
    (process_chats_for_date 0 0 [] [] [BatchItem.item emptyChat none]).failed_count = 1 ∧
    (process_chats_for_date 0 0 [] [] [BatchItem.item emptyChat none]).processed_count = 0 := by
  refine ⟨by rw [analyze_chat_empty 0 [] emptyChat none (Or.inr rfl)], ?_, ?_⟩ <;>
    simp [process_chats_for_date, processStep,
      analyze_chat_empty 0 [] emptyChat none (Or.inr rfl), _update_daily_aggregates]

/-- Witness for the amended C5 at the concrete empty chat. -/
theorem empty_chat_skip_witness :
    _analyze_chat 0 [] emptyChat none = (none, []) ∧
    ∀ acc : BatchAcc, processStep 0 acc (BatchItem.item emptyChat none) =
      { acc with failed_count := acc.failed_count + 1 } :=
  empty_chat_skip 0 [] emptyChat none (Or.inr rfl)

/-- A one-message payload used by the batch chats below. -/
def oneMessage : List Message :=
  [ { role := some "user", content := "q", timestamp := some 0 } ]

/-- A healthy chat with the given id. -/
def simpleChat (cid : String) : ChatData :=
  { id := cid
    user_id := "u1"
    title := "t"
    chat := some oneMessage
    created_at := 0
    updated_at := 0 }

/-- A well-formed LLM response for the batch chats. -/
def okResp : LlmResponse :=
  { manual_time_low := some (JsonNum.num 30)
    manual_time_most_likely := some (JsonNum.num 60)
    manual_time_high := some (JsonNum.num 90)
    confidence_level := some (JsonNum.num 80) }

/-- The row a healthy batch chat stores. -/
def simpleRow (cid : String) : ChatAnalysisRow :=
  { chat_id := cid
    user_id := "u1"
    first_message_at := 0
    last_message_at := 0
    total_duration_minutes := 0
    active_duration_minutes := 0
    idle_time_minutes := 0
    manual_time_low := 30
    manual_time_most_likely := 60
    manual_time_high := 90
    confidence_level := 80
    time_saved_minutes := 60
    message_count := 1
    chat_date := 0 }

/-- The per-chat result a healthy batch chat returns. -/
def simpleResult (cid : String) : ChatAnalysisResultM :=
  { chat_id := cid
    chat_date := 0
    user_id := "u1"
    time_saved_minutes := 60
    active_duration_minutes := 0
    manual_time_most_likely := 60
    message_count := 1
    confidence_level := 80 }

/-- Evaluation of the metrics of the one-message payload. -/
theorem one_message_metrics_eval :
    _calculate_time_metrics 0 oneMessage 0 0 =
      { first_message_at := 0
        last_message_at := 0
        total_duration_minutes := 0
        active_duration_minutes := 0
        idle_time_minutes := 0 } := by
  have h1 : oneMessage.filterMap (fun m => m.timestamp) = ([0] : List ℚ) := by
    simp [oneMessage]
  have hne : oneMessage ≠ [] := by simp [oneMessage]
  have hne2 : (([0] : List ℚ)) ≠ [] := by simp
  have hact : _calculate_active_duration ([0] : List ℚ) = 0 := rfl
  simp only [_calculate_time_metrics, if_neg hne, h1, if_neg hne2, hact]
  norm_num [pyMin, pyMax, pyInt]

/-- Evaluation of `_analyze_chat` on a healthy chat against any store not
yet holding its id. -/
theorem analyze_simple_eval (store : List ChatAnalysisRow) (cid : String)
    (hany : (store.any fun x => x.chat_id == cid) = false) :
    _analyze_chat 0 store (simpleChat cid) (some okResp) =
      (some (simpleResult cid), store ++ [simpleRow cid]) := by
  have hne : oneMessage ≠ [] := by simp [oneMessage]
  have hte : _parse_time_estimates okResp =
      { low := 30, most_likely := 60, high := 90, confidence := 80 } := by
    simp [okResp, _parse_time_estimates, getIntField]
  simp only [_analyze_chat, simpleChat, if_neg hne, one_message_metrics_eval, hte]
  norm_num [analysisRowOf, insertChatAnalysis, hany, positiveDurationsCheck,
    validConfidenceCheck, validEstimatesCheck, dateOfTimestamp, simpleResult,
    simpleRow, oneMessage]

/-- The five-chat batch of the C6 scenario: chat 3's LLM call fails. -/
def c6Batch : List BatchItem :=
  [ BatchItem.item (simpleChat "c1") (some okResp),
    BatchItem.item (simpleChat "c2") (some okResp),
    BatchItem.item (simpleChat "c3") none,
    BatchItem.item (simpleChat "c4") (some okResp),
    BatchItem.item (simpleChat "c5") (some okResp) ]

/-- C6: per-chat isolation — a loop item that raises only increments
`failed_count` and the loop continues with the remaining chats; a failed
LLM call yields `None` (counted as failed, not raised); and the concrete
batch of 5 chats in which exactly chat 3's LLM call fails ends with
`processed_count = 4`, `failed_count = 1` and status `completed`. -/
theorem per_chat_isolation :
    (∀ (now : ℚ) (acc : BatchAcc) (rest : List BatchItem),
      List.foldl (processStep now) acc (BatchItem.raises :: rest) =
        List.foldl (processStep now) { acc with failed_count := acc.failed_count + 1 } rest) ∧
    (∀ (now : ℚ) (store : List ChatAnalysisRow) (conv : ChatData),
      _analyze_chat now store conv none = (none, store)) ∧
    (process_chats_for_date 0 0 [] [] c6Batch).status = "completed" ∧
    (process_chats_for_date 0 0 [] [] c6Batch).processed_count = 4 ∧
    (process_chats_for_date 0 0 [] [] c6Batch).failed_count = 1 := by
  have hrun : ∀ x,
      x = List.foldl (processStep 0)
        { results := [], processed_count := 0, failed_count := 0, store := [] } c6Batch →
      x.processed_count = 4 ∧ x.failed_count = 1 := by
    intro x hx
    rw [c6Batch, List.foldl_cons, List.foldl_cons, List.foldl_cons, List.foldl_cons,
      List.foldl_cons, List.foldl_nil] at hx
    rw [show processStep 0
        { results := [], processed_count := 0, failed_count := 0, store := [] }
        (BatchItem.item (simpleChat "c1") (some okResp)) =
      { results := [simpleResult "c1"], processed_count := 1, failed_count := 0,
        store := [simpleRow "c1"] } by
        simp [processStep, analyze_simple_eval [] "c1" rfl]] at hx
    rw [show processStep 0
        { results := [simpleResult "c1"], processed_count := 1, failed_count := 0,
          store := [simpleRow "c1"] }
        (BatchItem.item (simpleChat "c2") (some okResp)) =
      { results := [simpleResult "c1", simpleResult "c2"], processed_count := 2,
        failed_count := 0, store := [simpleRow "c1", simpleRow "c2"] } by
        simp only [processStep]
        rw [analyze_simple_eval [simpleRow "c1"] "c2" (by decide)]
        rfl] at hx
    rw [show processStep 0
        { results := [simpleResult "c1", simpleResult "c2"], processed_count := 2,
          failed_count := 0, store := [simpleRow "c1", simpleRow "c2"] }
        (BatchItem.item (simpleChat "c3") none) =
      { results := [simpleResult "c1", simpleResult "c2"], processed_count := 2,
        failed_count := 1, store := [simpleRow "c1", simpleRow "c2"] } by
        simp [processStep, analyze_chat_llm_none]] at hx
    rw [show processStep 0
        { results := [simpleResult "c1", simpleResult "c2"], processed_count := 2,
          failed_count := 1, store := [simpleRow "c1", simpleRow "c2"] }
        (BatchItem.item (simpleChat "c4") (some okResp)) =
      { results := [simpleResult "c1", simpleResult "c2", simpleResult "c4"],
        processed_count := 3, failed_count := 1,
        store := [simpleRow "c1", simpleRow "c2", simpleRow "c4"] } by
        simp only [processStep]
        rw [analyze_simple_eval [simpleRow "c1", simpleRow "c2"] "c4" (by decide)]
        rfl] at hx
    rw [show processStep 0
        { results := [simpleResult "c1", simpleResult "c2", simpleResult "c4"],
          processed_count := 3, failed_count := 1,
          store := [simpleRow "c1", simpleRow "c2", simpleRow "c4"] }
        (BatchItem.item (simpleChat "c5") (some okResp)) =
      { results := [simpleResult "c1", simpleResult "c2", simpleResult "c4",
          simpleResult "c5"],
        processed_count := 4, failed_count := 1,
        store := [simpleRow "c1", simpleRow "c2", simpleRow "c4", simpleRow "c5"] } by
        simp only [processStep]
        rw [analyze_simple_eval [simpleRow "c1", simpleRow "c2", simpleRow "c4"] "c5"
          (by decide)]
        rfl] at hx
    subst hx
    exact ⟨rfl, rfl⟩
  refine ⟨?_, analyze_chat_llm_none, ?_, ?_, ?_⟩
  · intro now acc rest
    rw [List.foldl_cons]
    rfl
  · have hne : c6Batch ≠ [] := by simp [c6Batch]
    simp only [process_chats_for_date, if_neg hne]
  · have hne : c6Batch ≠ [] := by simp [c6Batch]
    simp only [process_chats_for_date, if_neg hne]
    exact (hrun _ rfl).1
  · have hne : c6Batch ≠ [] := by simp [c6Batch]
    simp only [process_chats_for_date, if_neg hne]
    exact (hrun _ rfl).2

/-- Witness for per-chat isolation at a concrete raising item and a
concrete LLM failure. -/
theorem per_chat_isolation_witness :
    List.foldl (processStep 0)
        { results := [], processed_count := 0, failed_count := 0, store := [] }
        [BatchItem.raises] =
      List.foldl (processStep 0)
        { results := [], processed_count := 0, failed_count := 0 + 1, store := [] } [] ∧
    _analyze_chat 0 [] (simpleChat "w") none = (none, []) :=
  ⟨per_chat_isolation.1 0
      { results := [], processed_count := 0, failed_count := 0, store := [] } [],
   per_chat_isolation.2.1 0 [] (simpleChat "w")⟩

/-- Per-chat result of a chat created on 2025-01-10 (epoch second
1736467200, day number 20098). -/
def jan10Result : ChatAnalysisResultM :=
  { chat_id := "chat-jan10"
    chat_date := 20098
    user_id := "u1"
    time_saved_minutes := 52
    active_duration_minutes := 8
    manual_time_most_likely := 60
    message_count := 4
    confidence_level := 80 }

/-- The global aggregate row created for 2025-01-10. -/
def jan10Global : DailyAggregateRow :=
  { analysis_date := 20098
    user_id := none
    chat_count := 1
    message_count := 4
    total_active_time := 8
    total_manual_time_estimated := 60
    total_time_saved := 52
    avg_confidence_level := 80 }

/-- The per-user aggregate row created for 2025-01-10. -/
def jan10User : DailyAggregateRow :=
  { jan10Global with user_id := some "u1" }

/-- C7: the occurrence date is the calendar date of the chat's creation
timestamp — it is what `_analyze_chat` returns and stores, the aggregator's
result does not depend on the run's target date at all, and a chat created
on 2025-01-10 (day 20098) processed by a run targeting 2025-01-15
(day 20103) creates/updates only aggregate rows keyed to day 20098. -/
theorem occurrence_date_attribution :
    (∀ (now : ℚ) (store : List ChatAnalysisRow) (conv : ChatData) (llm : Option LlmResponse)
        (res : ChatAnalysisResultM) (st2 : List ChatAnalysisRow),
      _analyze_chat now store conv llm = (some res, st2) →
      res.chat_date = dateOfTimestamp conv.created_at ∧
      ∃ row, st2 = store ++ [row] ∧ row.chat_date = dateOfTimestamp conv.created_at) ∧
    (∀ (t t2 : ℤ) (store : List DailyAggregateRow) (rs : List ChatAnalysisResultM),
      _update_daily_aggregates t store rs = _update_daily_aggregates t2 store rs) ∧
    dateOfTimestamp 1736467200 = 20098 ∧
    _update_daily_aggregates 20103 [] [jan10Result] = [jan10Global, jan10User] := by
  refine ⟨?_, ?_, ?_, ?_⟩
  · intro now store conv llm res st2 h
    obtain ⟨messages, resp, hc, hm, hl, hins, hres⟩ := analyze_chat_success h
    subst hres
    obtain ⟨hshape, _⟩ := insert_ok_shape hins
    exact ⟨rfl, _, hshape, rfl⟩
  · intro t t2 store rs
    rfl
  · norm_num [dateOfTimestamp]
  · have hb : batchAvgConfidence [jan10Result] = 80 := by
      norm_num [batchAvgConfidence, jan10Result]
    simp [_update_daily_aggregates, groupByKey, addToGroup, upsertGlobalAggregate,
      upsertUserAggregate, isGlobalRow, isUserRow, newAggregateRow, batchChatCount,
      hb, jan10Result, jan10Global, jan10User]
    norm_num [batchAvgConfidence]

/-- Witness for occurrence-date attribution: the stored and returned date of
the concrete analyzed chat is the date of its creation timestamp, and a
concrete aggregation result is unchanged when the target date changes. -/
theorem occurrence_date_attribution_witness :
    (c1Result.chat_date = dateOfTimestamp c1Chat.created_at ∧
     ∃ row, [c1Row] = ([] : List ChatAnalysisRow) ++ [row] ∧
       row.chat_date = dateOfTimestamp c1Chat.created_at) ∧
    _update_daily_aggregates 20103 [] [jan10Result] =
      _update_daily_aggregates 20098 [] [jan10Result] :=
  ⟨occurrence_date_attribution.1 0 [] c1Chat (some c1Resp) c1Result [c1Row]
      analyze_chat_c1_eval,
   occurrence_date_attribution.2.1 20103 20098 [] [jan10Result]⟩

/-- A found row certifies a positive `any`. -/
theorem any_of_mem_find? {V : Type} {p : V → Bool} {l : List V} {r : V}
    (h : l.find? p = some r) : l.any p = true := by
  induction l with
  | nil => simp [List.find?] at h
  | cons a t ih =>
    by_cases hpa : p a = true
    · simp [List.any_cons, hpa]
    · rw [List.find?_cons_of_neg _ hpa] at h
      simp [List.any_cons, ih h]

/-- `updateFirst` maps the first match through `f` and leaves it first. -/
theorem find?_updateFirst {V : Type} (p : V → Bool) (f : V → V) (l : List V) (r : V)
    (hpf : ∀ x, p x = true → p (f x) = true)
    (h : l.find? p = some r) :
    (updateFirst p f l).find? p = some (f r) := by
  induction l with
  | nil => simp [List.find?] at h
  | cons a t ih =>
    by_cases hpa : p a = true
    · rw [List.find?_cons_of_pos _ hpa] at h
      rw [Option.some.injEq] at h
      subst h
      unfold updateFirst
      rw [if_pos hpa]
      exact List.find?_cons_of_pos _ (hpf a hpa)
    · rw [List.find?_cons_of_neg _ hpa] at h
      unfold updateFirst
      rw [if_neg hpa]
      rw [List.find?_cons_of_neg _ hpa]
      exact ih h

/-- The global merge at a positive existing count is exactly the spec's
count-weighted mean. -/
theorem mergeGlobal_eq (rs : List ChatAnalysisResultM) (row : DailyAggregateRow)
    (hc : 0 < row.chat_count) :
    mergeGlobalAggregate rs row =
      { row with
        chat_count := row.chat_count + (rs.length : ℤ)
        message_count := row.message_count + (rs.map (fun r => r.message_count)).sum
        total_time_saved := row.total_time_saved + (rs.map (fun r => r.time_saved_minutes)).sum
        total_active_time :=
          row.total_active_time + (rs.map (fun r => r.active_duration_minutes)).sum
        total_manual_time_estimated :=
          row.total_manual_time_estimated + (rs.map (fun r => r.manual_time_most_likely)).sum
        avg_confidence_level :=
          (row.avg_confidence_level * ((row.chat_count : ℤ) : ℚ) +
            batchAvgConfidence rs * ((rs.length : ℤ) : ℚ)) /
            (((row.chat_count + (rs.length : ℤ)) : ℤ) : ℚ) } := by
  simp only [mergeGlobalAggregate, batchChatCount]
  have hw : row.chat_count + (rs.length : ℤ) - (rs.length : ℤ) = row.chat_count := by ring
  rw [hw, if_pos hc]

/-- C2 amended: when an aggregate row already exists for the key, the
GLOBAL upsert adds all counts and sums and recomputes the average
confidence as the exact count-weighted mean
`(old_avg * old_count + batch_avg * batch_count) / new_count` (when the old
count is positive); the PER-USER upsert adds all counts and sums but
overwrites the average confidence with the new batch's average — it does
not weight by counts. -/
theorem aggregate_weighted_merge :
    (∀ (store : List DailyAggregateRow) (d : ℤ) (rs : List ChatAnalysisResultM)
        (row : DailyAggregateRow),
      store.find? (isGlobalRow d) = some row → 0 < row.chat_count →
      (upsertGlobalAggregate store d rs).find? (isGlobalRow d) =
        some { row with
          chat_count := row.chat_count + (rs.length : ℤ)
          message_count := row.message_count + (rs.map (fun r => r.message_count)).sum
          total_time_saved :=
            row.total_time_saved + (rs.map (fun r => r.time_saved_minutes)).sum
          total_active_time :=
            row.total_active_time + (rs.map (fun r => r.active_duration_minutes)).sum
          total_manual_time_estimated :=
            row.total_manual_time_estimated + (rs.map (fun r => r.manual_time_most_likely)).sum
          avg_confidence_level :=
            (row.avg_confidence_level * ((row.chat_count : ℤ) : ℚ) +
              batchAvgConfidence rs * ((rs.length : ℤ) : ℚ)) /
              (((row.chat_count + (rs.length : ℤ)) : ℤ) : ℚ) }) ∧
    (∀ (store : List DailyAggregateRow) (d : ℤ) (u : String)
        (rs : List ChatAnalysisResultM) (row : DailyAggregateRow),
      store.find? (isUserRow d u) = some row →
      (upsertUserAggregate store d u rs).find? (isUserRow d u) =
        some { row with
          chat_count := row.chat_count + (rs.length : ℤ)
          message_count := row.message_count + (rs.map (fun r => r.message_count)).sum
          total_time_saved :=
            row.total_time_saved + (rs.map (fun r => r.time_saved_minutes)).sum
          total_active_time :=
            row.total_active_time + (rs.map (fun r => r.active_duration_minutes)).sum
          total_manual_time_estimated :=
            row.total_manual_time_estimated + (rs.map (fun r => r.manual_time_most_likely)).sum
          avg_confidence_level := batchAvgConfidence rs }) := by
  constructor
  · intro store d rs row hfind hc
    unfold upsertGlobalAggregate
    rw [if_pos (any_of_mem_find? hfind)]
    rw [find?_updateFirst (isGlobalRow d) (mergeGlobalAggregate rs) store row
      (fun x hx => hx) hfind]
    rw [mergeGlobal_eq rs row hc]
  · intro store d u rs row hfind
    unfold upsertUserAggregate
    rw [if_pos (any_of_mem_find? hfind)]
    rw [find?_updateFirst (isUserRow d u) (mergeUserAggregate rs) store row
      (fun x hx => hx) hfind]
    rfl

/-- Existing global aggregate for day 5: 3 chats at average confidence 80. -/
def c2GlobalRow : DailyAggregateRow :=
  { analysis_date := 5
    user_id := none
    chat_count := 3
    message_count := 30
    total_active_time := 10
    total_manual_time_estimated := 50
    total_time_saved := 40
    avg_confidence_level := 80 }

/-- The matching existing per-user aggregate for user u1 on day 5. -/
def c2UserRow : DailyAggregateRow :=
  { c2GlobalRow with user_id := some "u1" }

/-- First result of the new batch: confidence 90. -/
def c2Result1 : ChatAnalysisResultM :=
  { chat_id := "a"
    chat_date := 5
    user_id := "u1"
    time_saved_minutes := 10
    active_duration_minutes := 1
    manual_time_most_likely := 11
    message_count := 4
    confidence_level := 90 }

/-- Second result of the new batch: confidence 90. -/
def c2Result2 : ChatAnalysisResultM :=
  { c2Result1 with chat_id := "b" }

/-- Witness for the aggregate merge: merging 3 chats at 80 with 2 at 90
gives the weighted 84 on the global row, but sets 90 on the user row. -/
theorem aggregate_weighted_merge_witness :
    ((upsertGlobalAggregate [c2GlobalRow] 5 [c2Result1, c2Result2]).find?
        (isGlobalRow 5)).map (fun r => (r.chat_count, r.avg_confidence_level)) =
      some ((5 : ℤ), (84 : ℚ)) ∧
    ((upsertUserAggregate [c2UserRow] 5 "u1" [c2Result1, c2Result2]).find?
        (isUserRow 5 "u1")).map (fun r => (r.chat_count, r.avg_confidence_level)) =
      some ((5 : ℤ), (90 : ℚ)) := by
  constructor
  · rw [aggregate_weighted_merge.1 [c2GlobalRow] 5 [c2Result1, c2Result2] c2GlobalRow
      rfl (by decide)]
    norm_num [c2GlobalRow, c2Result1, c2Result2, batchAvgConfidence]
  · rw [aggregate_weighted_merge.2 [c2UserRow] 5 "u1" [c2Result1, c2Result2] c2UserRow
      rfl]
    norm_num [c2UserRow, c2GlobalRow, c2Result1, c2Result2, batchAvgConfidence]

/-- C2 counterexample: running the daily aggregation against an existing
per-user row with count 3 and average confidence 80, with a batch of 2
results at confidence 90, leaves the per-user average at 90 — not the
weighted mean `(80*3 + 90*2)/5 = 84` the claim requires for every row. -/
theorem aggregate_user_overwrite_counterexample :
    ((_update_daily_aggregates 20103 [c2UserRow] [c2Result1, c2Result2]).find?
        (isUserRow 5 "u1")).map (fun r => (r.chat_count, r.avg_confidence_level)) =
      some ((5 : ℤ), (90 : ℚ)) ∧
    ((80 : ℚ) * 3 + 90 * 2) / 5 = 84 ∧
    (90 : ℚ) ≠ 84 := by
  refine ⟨?_, by norm_num, by norm_num⟩
  have hb : batchAvgConfidence [c2Result1, c2Result2] = 90 := by
    norm_num [batchAvgConfidence, c2Result1, c2Result2]
  simp [_update_daily_aggregates, groupByKey, addToGroup, upsertGlobalAggregate,
    upsertUserAggregate, updateFirst, mergeUserAggregate, isGlobalRow, isUserRow,
    newAggregateRow, batchChatCount, c2UserRow, c2GlobalRow, c2Result1, c2Result2,
    List.find?]
  norm_num [batchAvgConfidence]

end Cogniforce



